import Mathlib

/-!
Verification development for the trigger-evaluation and execution-scheduling
engine of the keep workflow manager.

The embedding covers:
* `src/keep/workflowmanager/workflowmanager.py` — the filter predicate
  (`_apply_filter`), dotted-path field resolution (`_get_event_value`),
  the `user_assigned` trigger-matching loop (`insert_user_assigned_event`),
  incident scheduling (`insert_incident`), manager lifecycle
  (`start` / `stop`), the premium-provider gate
  (`_check_premium_providers`), the per-run executor (`_run_workflow`,
  `_run_workflow_on_failure`, `_save_workflow_results`);
* `src/keep/api/routes/incidents.py` — the mention-parsing and
  workflow-triggering logic of `add_comment`.

Modelling conventions:
* Python scalar values (the values that flow through trigger filters and
  the user_assigned event dict) are modelled by `SVal`; nested payloads
  used by dotted-path resolution are modelled by `EventVal`, whose
  dictionaries are association lists without duplicate keys.
* Python exceptions are modelled with `Except String`; a function that can
  raise returns `Except`.  External collaborators (the DB commit, the
  workflow store resolution, the provider runtime executing steps and the
  on_failure action) are modelled by outcome parameters carried in the
  input structures.
* Python's `re` library is modelled on the fragment actually exercised by
  trigger filters: an optional leading anchor followed by literal
  characters.  Theorems about regex filters quantify only over patterns
  inside this fragment.
-/

/-- Python scalar values as they flow through trigger filters and the
user_assigned event data dict. -/
inductive SVal where
  | sNone
  | sBool (b : Bool)
  | sInt (n : Int)
  | sStr (s : String)
deriving DecidableEq

/-- Python truthiness of a scalar value. -/
def SVal.truthy : SVal → Bool
  | .sNone => false
  | .sBool b => b
  | .sInt n => n != 0
  | .sStr s => s != ""

/-- Python `==` on the modelled scalar values.  Python treats `True == 1`
and `False == 0` as true because `bool` is an `int` subtype. -/
def py_eq : SVal → SVal → Bool
  | .sNone, .sNone => true
  | .sBool a, .sBool b => a == b
  | .sBool a, .sInt n => n == (if a then 1 else 0)
  | .sInt n, .sBool a => n == (if a then 1 else 0)
  | .sInt a, .sInt b => a == b
  | .sStr a, .sStr b => a == b
  | _, _ => false

/-- Python `str()` of a boolean, as used by `_apply_filter` for the
`value == str(filter_val)` comparison. -/
def py_str_bool (b : Bool) : String :=
  if b then "True" else "False"

/-- Metacharacters of Python's re syntax.  A pattern free of these is a
plain literal pattern. -/
def metaChars : List Char :=
  ['^', '$', '.', '*', '+', '?', '[', ']', '(', ')', '|', '\\',
   Char.ofNat 123, Char.ofNat 125]

/-- A character that stands for itself inside a regex pattern. -/
def isLiteralChar (c : Char) : Bool :=
  !(metaChars.contains c)

/-- Modelled fragment of Python regex patterns: an optional leading `^`
anchor followed by literal characters.  Patterns outside the fragment are
not modelled and map to `none`; theorems quantify only over patterns inside
the fragment. -/
def parseSimplePattern (p : String) : Option (Bool × List Char) :=
  match p.toList with
  | '^' :: rest => if rest.all isLiteralChar then some (true, rest) else none
  | l => if l.all isLiteralChar then some (false, l) else none

/-- Fuel-driven scan collecting the non-overlapping left-to-right
occurrences of the nonempty literal `lit`, exactly as Python's
`re.findall` collects matches of a literal pattern. -/
def findallFuel (lit : List Char) : Nat → List Char → List (List Char)
  | _, [] => []
  | 0, _ :: _ => []
  | Nat.succ f, c :: rest =>
    if lit.isPrefixOf (c :: rest) then
      lit :: findallFuel lit f (List.drop (lit.length - 1) rest)
    else
      findallFuel lit f rest

/-- Python `re.findall` for the modelled pattern fragment.  An anchored
pattern can only match at the start of the subject; an empty literal
matches once at every position (length + 1 empty matches). -/
def pyFindall (anchored : Bool) (lit : List Char) (s : List Char) :
    List (List Char) :=
  if anchored then
    if lit.isPrefixOf s then [lit] else []
  else if lit.isEmpty then
    List.replicate (s.length + 1) []
  else
    findallFuel lit s.length s

/-- The regex-marker convention of `_apply_filter`: a filter value that is
a string starting with `r"` denotes a pattern; Python strips the first two
characters and the final character (`filter_val[2:-1]`). -/
def stripRegexMarker (fs : String) : Option String :=
  match fs.toList with
  | 'r' :: '\"' :: rest => some (String.mk rest.dropLast)
  | _ => none

/-- Result of `WorkflowManager._apply_filter`: Python returns either the
list produced by `re.findall` or a boolean; every caller consumes only the
truthiness of the result. -/
inductive FilterRes where
  | found (l : List (List Char))
  | flag (b : Bool)

/-- Python truthiness of an `_apply_filter` result. -/
def FilterRes.truthy : FilterRes → Bool
  | .found l => !l.isEmpty
  | .flag b => b

/-- `WorkflowManager._apply_filter` (workflowmanager.py lines 62-79).  A
string filter value starting with the regex marker is compiled and run
with `findall` on the raw event value; `findall` on a non-string raises a
TypeError which the `except` clause turns into `False`.  A boolean filter
value against a string event value compares with `str(filter_val)`;
everything else is plain Python equality. -/
def apply_filter (filter_val value : SVal) : FilterRes :=
  match filter_val with
  | .sStr fs =>
    match stripRegexMarker fs with
    | some pat =>
      match parseSimplePattern pat with
      | some (anch, lit) =>
        match value with
        | .sStr v => .found (pyFindall anch lit v.toList)
        | _ => .flag false
      | none => .flag false
    | none => .flag (py_eq value (.sStr fs))
  | .sBool bv =>
    match value with
    | .sStr s => .flag (s == py_str_bool bv)
    | _ => .flag (py_eq value (.sBool bv))
  | fv => .flag (py_eq value fv)

/-- One trigger filter: `{key, value, exclude}` with `exclude` defaulting
to false (workflowmanager.py lines 165-168). -/
structure FilterSpec where
  key : String
  value : SVal
  exclude : Bool

/-- One workflow trigger: its `type`, its ordered filters and, for
incident triggers, the lifecycle-transition names it subscribes to. -/
structure TriggerSpec where
  ttype : String
  filters : List FilterSpec
  events : List String

/-- The inner filter loop of `insert_user_assigned_event`
(workflowmanager.py lines 165-189): a missing key stops with False, a
non-matching non-exclude filter stops with False, a matching exclude
filter stops with False, otherwise the next filter is evaluated. -/
def eval_filters (data : List (String × SVal)) : List FilterSpec → Bool
  | [] => true
  | f :: rest =>
    match List.lookup f.key data with
    | none => false
    | some ev =>
      if !(apply_filter f.value ev).truthy && !f.exclude then false
      else if (apply_filter f.value ev).truthy && f.exclude then false
      else eval_filters data rest

/-- The outer trigger loop of `insert_user_assigned_event`
(workflowmanager.py lines 160-193): `should_run` starts False, each
trigger is evaluated in order, and the first trigger that passes its
filters short-circuits the rest. -/
def eval_triggers (data : List (String × SVal)) : List TriggerSpec → Bool
  | [] => false
  | t :: rest =>
    if eval_filters data t.filters then true else eval_triggers data rest

/-- Reference formulation of one filter, following the spec's wording: the
field must be present and the predicate outcome must differ from
`exclude`. -/
def spec_filter_ok (data : List (String × SVal)) (f : FilterSpec) : Bool :=
  match List.lookup f.key data with
  | none => false
  | some ev => (apply_filter f.value ev).truthy != f.exclude

/-- Reference formulation of one trigger: every filter passes. -/
def spec_trigger_should_run (data : List (String × SVal))
    (t : TriggerSpec) : Bool :=
  t.filters.all (spec_filter_ok data)

/-- The resolved executable workflow object returned by the workflow
store, as used by the manager: its declared triggers. -/
structure WorkflowObj where
  workflow_triggers : List TriggerSpec

/-- One stored workflow definition as listed by
`workflow_store.get_all_workflows`, together with the outcome of
`_get_workflow_from_store` for it: `resolved = none` models the two
swallowed resolution failures (provider not configured, generic error),
after which the manager skips the workflow. -/
structure WorkflowModelRec where
  id : String
  name : String
  tenant_id : String
  is_disabled : Bool
  resolved : Option WorkflowObj

/-- A value stored in a scheduled-run dict appended to
`scheduler.workflows_to_run`. -/
inductive RunVal where
  | wf (w : WorkflowObj)
  | str (s : String)
  | data (d : List (String × SVal))
  | incident (i : List (String × SVal))

/-- The dict literal appended by `insert_user_assigned_event`
(workflowmanager.py lines 210-218). -/
def mk_user_assigned_run (tenant_id : String) (data : List (String × SVal))
    (workflow_id : String) (wf : WorkflowObj) : List (String × RunVal) :=
  [("workflow", RunVal.wf wf),
   ("workflow_id", RunVal.str workflow_id),
   ("tenant_id", RunVal.str tenant_id),
   ("triggered_by", RunVal.str "user_assigned"),
   ("event", RunVal.data data)]

/-- `WorkflowManager.insert_user_assigned_event` (workflowmanager.py lines
105-220), returning the list of run dicts appended to the scheduler queue:
disabled workflows are skipped, unresolvable workflows are skipped,
workflows without a `user_assigned` trigger are skipped, and otherwise the
trigger/filter loop decides scheduling. -/
def insert_user_assigned_event (tenant_id : String)
    (data : List (String × SVal)) (models : List WorkflowModelRec) :
    List (List (String × RunVal)) :=
  models.filterMap (fun m =>
    if m.is_disabled then none
    else
      match m.resolved with
      | none => none
      | some wf =>
        let ua := wf.workflow_triggers.filter (fun t => t.ttype == "user_assigned")
        if ua.isEmpty then none
        else if eval_triggers data ua then
          some (mk_user_assigned_run tenant_id data m.id wf)
        else none)

/-- Reference decision for one workflow model on a user_assigned event,
following the spec's wording: enabled, resolvable, at least one
`user_assigned` trigger, and some trigger passes all of its filters. -/
def spec_user_assigned_run (tenant_id : String)
    (data : List (String × SVal)) (m : WorkflowModelRec) :
    Option (List (String × RunVal)) :=
  if m.is_disabled then none
  else
    match m.resolved with
    | none => none
    | some wf =>
      let ua := wf.workflow_triggers.filter (fun t => t.ttype == "user_assigned")
      if ua.isEmpty then none
      else if ua.any (spec_trigger_should_run data) then
        some (mk_user_assigned_run tenant_id data m.id wf)
      else none

/-- An incident object: its id and its attribute mapping (the DTO fields
plus any merged enrichment). -/
structure IncidentObj where
  id : String
  attrs : List (String × SVal)

/-- Python `setattr` on the modelled incident attributes: overwrite an
existing key, otherwise append. -/
def set_attr (attrs : List (String × SVal)) (k : String) (v : SVal) :
    List (String × SVal) :=
  if attrs.any (fun kv => kv.1 == k) then
    attrs.map (fun kv => if kv.1 == k then (k, v) else kv)
  else
    attrs ++ [(k, v)]

/-- The enrichment merge of `insert_incident` (workflowmanager.py lines
258-261): each stored enrichment key/value is set on the incident, the
enrichment value winning on conflict. -/
def merge_enrichment (i : IncidentObj)
    (enrichment : Option (List (String × SVal))) : IncidentObj :=
  match enrichment with
  | none => i
  | some kvs => { i with attrs := kvs.foldl (fun a kv => set_attr a kv.1 kv.2) i.attrs }

/-- The dict literal appended by `insert_incident` (workflowmanager.py
lines 265-273). -/
def mk_incident_run (tenant_id : String) (inc : IncidentObj)
    (trigger : String) (workflow_id : String) (wf : WorkflowObj) :
    List (String × RunVal) :=
  [("workflow", RunVal.wf wf),
   ("workflow_id", RunVal.str workflow_id),
   ("tenant_id", RunVal.str tenant_id),
   ("triggered_by", RunVal.str ("incident:" ++ trigger)),
   ("event", RunVal.incident inc.attrs)]

/-- `WorkflowManager.insert_incident` (workflowmanager.py lines 222-274):
a workflow is scheduled when some `incident`-typed trigger subscribes to
the given transition name; enrichment (an external read, passed as a
parameter) is merged onto the incident before the run dict is built. -/
def insert_incident (tenant_id : String) (incident : IncidentObj)
    (trigger : String) (models : List WorkflowModelRec)
    (enrichment : Option (List (String × SVal))) :
    List (List (String × RunVal)) :=
  models.filterMap (fun m =>
    if m.is_disabled then none
    else
      match m.resolved with
      | none => none
      | some wf =>
        let incident_triggers :=
          (wf.workflow_triggers.filter (fun t => t.ttype == "incident")).flatMap
            (fun t => t.events)
        if !(incident_triggers.contains trigger) then none
        else
          some (mk_incident_run tenant_id (merge_enrichment incident enrichment)
            trigger m.id wf))

/-- Nested Python values reached by dotted-path field resolution: the
event object's attributes and the mappings hanging off them.
Dictionaries are association lists without duplicate keys. -/
inductive EventVal where
  | evNone
  | evBool (b : Bool)
  | evInt (n : Int)
  | evStr (s : String)
  | evDict (l : List (String × EventVal))

/-- Python truthiness of a nested event value (an empty dict is falsy). -/
def EventVal.truthy : EventVal → Bool
  | .evNone => false
  | .evBool b => b
  | .evInt n => n != 0
  | .evStr s => s != ""
  | .evDict l => !l.isEmpty

/-- Python `str.split` on a single-character separator, here the dot. -/
def splitDotAux (acc : List Char) : List Char → List (List Char)
  | [] => [acc.reverse]
  | c :: rest =>
    if c = '.' then acc.reverse :: splitDotAux [] rest
    else splitDotAux (c :: acc) rest

/-- `filter_key.split(".")` of workflowmanager.py line 279. -/
def splitKey (key : String) : List String :=
  (splitDotAux [] key.toList).map String.mk

/-- The loop of `_get_event_value` over the segments after the first
(workflowmanager.py lines 285-290): each segment is a `.get` on the
previous value — which raises AttributeError when that value is not a
mapping — followed by the truthiness check `if not event_val`. -/
def get_event_value_loop : EventVal → List String → Except String EventVal
  | v, [] => .ok v
  | v, k :: rest =>
    match v with
    | .evDict l =>
      let v2 := (List.lookup k l).getD .evNone
      if v2.truthy = false then .ok .evNone
      else get_event_value_loop v2 rest
    | _ => .error "AttributeError"

/-- `WorkflowManager._get_event_value` (workflowmanager.py lines 276-292).
The first segment of a dotted key is read with `getattr(event, _, None)`
and checked for truthiness; each later segment is a mapping `.get`
followed by the same truthiness check.  A key without a dot is a plain
`getattr` with default None and no truthiness check.  `evNone` is the
"absent" outcome the code signals with Python None. -/
def get_event_value (event : List (String × EventVal)) (filter_key : String) :
    Except String EventVal :=
  if filter_key.toList.contains '.' then
    match splitKey filter_key with
    | [] => .ok .evNone
    | k0 :: rest =>
      let v0 := (List.lookup k0 event).getD .evNone
      if v0.truthy = false then .ok .evNone
      else get_event_value_loop v0 rest
  else .ok ((List.lookup filter_key event).getD .evNone)

/-- Reference walk for dotted-path resolution, checking truthiness at
entry of each step: a falsy value at any depth is the absent outcome, a
truthy non-mapping value with segments left raises. -/
def walk_spec : EventVal → List String → Except String EventVal
  | v, [] => if v.truthy = false then .ok .evNone else .ok v
  | v, k :: rest =>
    if v.truthy = false then .ok .evNone
    else
      match v with
      | .evDict l => walk_spec ((List.lookup k l).getD .evNone) rest
      | _ => .error "AttributeError"

/-- Reference formulation of field resolution built on `walk_spec`. -/
def resolve_spec (event : List (String × EventVal)) (filter_key : String) :
    Except String EventVal :=
  if filter_key.toList.contains '.' then
    match splitKey filter_key with
    | [] => .ok .evNone
    | k0 :: rest => walk_spec ((List.lookup k0 event).getD .evNone) rest
  else .ok ((List.lookup filter_key event).getD .evNone)

/-- The four premium provider types blocked in multi-tenant mode
(workflowmanager.py line 26). -/
def PREMIUM_PROVIDERS : List String :=
  ["bash", "python", "llamacpp", "ollama"]

/-- Modelled from the spec: the string value of the identity manager's
AUTH0 member (`keep.identitymanager` is not under src); the spec calls
this the deployment's restricted multi-tenant mode. -/
def AUTH0_VALUE : String := "auth0"

/-- The AUTH_TYPE test of `_check_premium_providers` (workflowmanager.py
lines 304-307): the deployment is restricted when AUTH_TYPE is the AUTH0
value or the backward-compatible literal MULTI_TENANT. -/
def restricted_auth (auth : String) : Bool :=
  auth == AUTH0_VALUE || auth == "MULTI_TENANT"

/-- `WorkflowManager._check_premium_providers` (workflowmanager.py lines
294-312): in a restricted deployment, the first premium provider
referenced by the workflow raises; the result is the raised message, or
`none` when the check passes. -/
def check_premium_providers (auth : String) (providers : List String) :
    Option String :=
  if restricted_auth auth then
    (providers.find? (fun p => PREMIUM_PROVIDERS.contains p)).map
      (fun p => "Provider " ++ p ++
        " is a premium provider. You can self-host or contact us to get access to it.")
  else none

/-- Behavior of `workflow.run` for one execution: either a list of
captured step errors (possibly empty) or an uncaught exception. -/
inductive StepsOutcome where
  | ok (errors : List String)
  | exc (msg : String)

/-- One workflow execution as `_run_workflow` sees it: identity, the
provider types it references, whether an `on_failure` action is
configured, the outcome of each successive `on_failure.run()` invocation
(`some msg` models a raise; entries beyond the list succeed), the behavior
of `workflow.run`, and the behavior of the external
`save_workflow_results` call (`some msg` models a raise). -/
structure WFExec where
  workflow_id : String
  providers : List String
  has_on_failure : Bool
  comp_sched : List (Option String)
  steps : StepsOutcome
  save_exc : Option String

/-- The message synthesized by `_run_workflow_on_failure`
(workflowmanager.py lines 335-337) and injected as the action's sole
provider parameter. -/
def on_failure_message (workflow_id error_message : String) : String :=
  "Workflow " ++ workflow_id ++ " failed with errors: " ++ error_message

/-- Python `", ".join(errors)` of workflowmanager.py line 373. -/
def join_comma : List String → String
  | [] => ""
  | [s] => s
  | s :: rest => s ++ ", " ++ join_comma rest

/-- `WorkflowManager._run_workflow_on_failure` (workflowmanager.py lines
314-356) at its `callIdx`-th invocation in a run: when `on_failure` is
configured it runs the action with the synthesized message (returned
first); the second component is the exception the action raised, if any.
Without `on_failure` the function only logs. -/
def run_on_failure_model (w : WFExec) (callIdx : Nat) (error_message : String) :
    List String × Option String :=
  if w.has_on_failure then
    ([on_failure_message w.workflow_id error_message],
     w.comp_sched.getD callIdx none)
  else ([], none)

/-- Observable outcome of one `_run_workflow` call: the messages passed to
the `on_failure` action in invocation order, whether `workflow.run` was
invoked at all, whether `_save_workflow_results` was reached, whether the
external save succeeded, and the Python-level result — the returned
`[errors, None]` or the propagated exception. -/
structure RunResult where
  comp_calls : List String
  steps_ran : Bool
  save_reached : Bool
  saved : Bool
  outcome : Except String (List String)

/-- The tail of `_run_workflow` past the try/except (workflowmanager.py
lines 383-390): `_save_workflow_results` logs and re-raises a save
failure, otherwise `[errors, None]` is returned. -/
def finish_run (w : WFExec) (errors : List String) (calls : List String) :
    RunResult :=
  match w.save_exc with
  | some se =>
    { comp_calls := calls, steps_ran := true, save_reached := true,
      saved := false, outcome := .error se }
  | none =>
    { comp_calls := calls, steps_ran := true, save_reached := true,
      saved := true, outcome := .ok errors }

/-- `WorkflowManager._run_workflow` (workflowmanager.py lines 358-390).
The premium check and `workflow.run` execute inside `try`; a non-empty
error list triggers `on_failure` still inside the `try`, so an exception
raised by `on_failure` there re-enters the `except` clause, which invokes
`on_failure` a second time with `str(e)` and re-raises; an exception from
`workflow.run` or the premium check reaches `except` directly, where an
`on_failure` exception escapes in place of the original one. -/
def run_workflow (auth : String) (w : WFExec) : RunResult :=
  match check_premium_providers auth w.providers with
  | some e =>
    let (calls, comp_exc) := run_on_failure_model w 0 e
    { comp_calls := calls, steps_ran := false, save_reached := false,
      saved := false, outcome := .error (comp_exc.getD e) }
  | none =>
    match w.steps with
    | .exc e =>
      let (calls, comp_exc) := run_on_failure_model w 0 e
      { comp_calls := calls, steps_ran := true, save_reached := false,
        saved := false, outcome := .error (comp_exc.getD e) }
    | .ok errors =>
      if errors.isEmpty then finish_run w errors []
      else
        let (calls0, comp_exc0) := run_on_failure_model w 0 (join_comma errors)
        match comp_exc0 with
        | none => finish_run w errors calls0
        | some ce =>
          let (calls1, comp_exc1) := run_on_failure_model w 1 ce
          { comp_calls := calls0 ++ calls1, steps_ran := true,
            save_reached := false, saved := false,
            outcome := .error (comp_exc1.getD ce) }

/-- Terminal state of a scheduled run as recorded by the dispatcher. -/
inductive RunState where
  | succeeded
  | failed
deriving DecidableEq

/-- Modelled from the spec: the Dispatcher's worker (WorkflowScheduler,
not under src/) invokes `_run_workflow`, catches anything it raises,
records the run as Failed, and never lets the failure escape to the
dispatch loop or to the event producer (spec sections 4.3, 4.4 and 7). -/
def worker_execute (auth : String) (w : WFExec) : RunState :=
  match (run_workflow auth w).outcome with
  | .error _ => .failed
  | .ok _ => .succeeded

/-- Modelled from the spec: the WorkflowScheduler's own observable state
(the class is not under src/); `start` launches the dispatch loop,
`stop` halts it (spec section 4.3). -/
structure SchedulerState where
  running : Bool

/-- Modelled from the spec: `WorkflowScheduler.start` puts the dispatch
loop in its running state. -/
def scheduler_start (_ : SchedulerState) : SchedulerState :=
  { running := true }

/-- Modelled from the spec: `WorkflowScheduler.stop` halts the dispatch
loop. -/
def scheduler_stop (_ : SchedulerState) : SchedulerState :=
  { running := false }

/-- The manager's lifecycle state: the `started` flag and the `scheduler`
attribute, which `stop()` sets to Python None (workflowmanager.py lines
53-60). -/
structure ManagerState where
  started : Bool
  scheduler : Option SchedulerState

/-- `WorkflowManager.start` (workflowmanager.py lines 44-51): a no-op when
already started; otherwise `self.scheduler.start()` — an AttributeError
when the scheduler reference was cleared — then `started = True`. -/
def manager_start (m : ManagerState) : Except String ManagerState :=
  if m.started then .ok m
  else
    match m.scheduler with
    | none => .error "AttributeError: NoneType has no attribute start"
    | some s => .ok { started := true, scheduler := some (scheduler_start s) }

/-- `WorkflowManager.stop` (workflowmanager.py lines 53-60): a no-op when
not started; otherwise `self.scheduler.stop()`, `started = False`, and the
scheduler reference is cleared. -/
def manager_stop (m : ManagerState) : Except String ManagerState :=
  if !m.started then .ok m
  else
    match m.scheduler with
    | none => .error "AttributeError: NoneType has no attribute stop"
    | some s =>
      let _ := scheduler_stop s
      .ok { started := false, scheduler := none }

/-- The character class of the mention regex `@([a-zA-Z0-9_\.]+)` in
`add_comment` (incidents.py line 279). -/
def isMentionChar (c : Char) : Bool :=
  c.isAlpha || c.isDigit || c == '_' || c == '.'

/-- Fuel-driven left-to-right scan modelling `re.findall` with the single
capture group of the mention regex: at each `@`, the longest nonempty run
of mention characters is captured and scanning resumes after it. -/
def mentionsFuel : Nat → List Char → List String
  | _, [] => []
  | 0, _ :: _ => []
  | Nat.succ f, '@' :: rest =>
    let run := rest.takeWhile isMentionChar
    if run.isEmpty then mentionsFuel f rest
    else String.mk run :: mentionsFuel f (rest.drop run.length)
  | Nat.succ f, _ :: rest => mentionsFuel f rest

/-- `re.findall(r'@([a-zA-Z0-9_\.]+)', comment)` of incidents.py line
279. -/
def extractMentions (comment : String) : List String :=
  mentionsFuel comment.toList.length comment.toList

/-- The data dict passed to `insert_user_assigned_event` for one mention
(incidents.py lines 317-323). -/
def mention_event_data (incident_id comment_id mentioned_user mentioned_by
    comment_text : String) : List (String × SVal) :=
  [("incident_id", SVal.sStr incident_id),
   ("comment_id", SVal.sStr comment_id),
   ("mentioned_user", SVal.sStr mentioned_user),
   ("mentioned_by", SVal.sStr mentioned_by),
   ("comment_text", SVal.sStr comment_text)]

/-- Observable outcome of one `add_comment` call: the mention rows durably
committed (their user ids, in order), whether the session was rolled back,
the per-user realtime notifications sent, the data dicts passed to
`insert_user_assigned_event`, whether the general incident-comment
notification was sent, the comment returned to the HTTP caller, and
whether anything escaped to that caller. -/
structure CommentOutcome where
  persisted_mentions : List String
  rolled_back : Bool
  mention_pushes : List (String × String × String × String)
  insert_calls : List (List (String × SVal))
  comment_notified : Bool
  returned_comment : String
  raised : Bool

/-- The mention-handling tail of `add_comment` (incidents.py lines
278-336).  `pusher` says whether a pusher client is wired; `commit_ok`
models the outcome of `session.commit()` on the mention rows (the
modelled failure point — the pusher and manager calls themselves are
modelled as non-raising).  A commit failure is caught: the session is
rolled back, no user-mention push and no manager call happens, and the
comment is still returned; the pusher gate also guards the
`insert_user_assigned_event` calls, so without a pusher client no
workflow is triggered even though the mention rows commit. -/
def add_comment_model (incident_id comment_id author comment_text : String)
    (pusher : Bool) (commit_ok : Bool) : CommentOutcome :=
  let mentions := extractMentions comment_text
  if mentions.isEmpty then
    { persisted_mentions := [], rolled_back := false, mention_pushes := [],
      insert_calls := [], comment_notified := pusher,
      returned_comment := comment_id, raised := false }
  else if commit_ok then
    { persisted_mentions := mentions, rolled_back := false,
      mention_pushes :=
        if pusher then
          mentions.map (fun m => (incident_id, comment_id, m, author))
        else [],
      insert_calls :=
        if pusher then
          mentions.map (fun m =>
            mention_event_data incident_id comment_id m author comment_text)
        else [],
      comment_notified := pusher, returned_comment := comment_id,
      raised := false }
  else
    { persisted_mentions := [], rolled_back := true, mention_pushes := [],
      insert_calls := [], comment_notified := pusher,
      returned_comment := comment_id, raised := false }

/-- The filter loop computes the conjunction of the per-filter conditions:
field present and predicate outcome different from `exclude`. -/
theorem eval_filters_eq_all (data : List (String × SVal)) :
    ∀ fs : List FilterSpec, eval_filters data fs = fs.all (spec_filter_ok data) := by
  intro fs
  induction fs with
  | nil => rfl
  | cons f rest ih =>
    simp only [eval_filters, List.all_cons, spec_filter_ok]
    cases hl : List.lookup f.key data with
    | none => rfl
    | some ev =>
      cases happ : (apply_filter f.value ev).truthy <;>
        cases hex : f.exclude <;> simp [ih]

/-- The trigger loop computes the disjunction of the per-trigger
outcomes. -/
theorem eval_triggers_eq_any (data : List (String × SVal)) :
    ∀ ts : List TriggerSpec,
      eval_triggers data ts = ts.any (spec_trigger_should_run data) := by
  intro ts
  induction ts with
  | nil => rfl
  | cons t rest ih =>
    simp only [eval_triggers, List.any_cons, spec_trigger_should_run]
    rw [eval_filters_eq_all]
    cases t.filters.all (spec_filter_ok data) <;> simp [ih]

/-- C3: for user_assigned events, filter evaluation follows the spec's
algorithm: `shouldRun` defaults to true and each filter, in declaration
order, fails the trigger when its field is absent, when a matching
predicate has `exclude` set, or when a non-matching predicate has
`exclude` unset — equivalently, a trigger passes iff every filter has its
field present and predicate outcome different from `exclude`; a trigger
with zero filters yields true; the workflow is scheduled iff some
matching-kind trigger passes (first success short-circuits). -/
theorem user_assigned_filter_algorithm :
    (∀ data fs, eval_filters data fs = fs.all (spec_filter_ok data))
    ∧ (∀ data, eval_filters data [] = true)
    ∧ (∀ data ts, eval_triggers data ts = ts.any (spec_trigger_should_run data))
    ∧ (∀ tenant_id data models,
        insert_user_assigned_event tenant_id data models
          = models.filterMap (spec_user_assigned_run tenant_id data)) := by
  refine ⟨eval_filters_eq_all, fun _ => rfl, eval_triggers_eq_any, ?_⟩
  intro tenant_id data models
  unfold insert_user_assigned_event spec_user_assigned_run
  apply List.filterMap_congr
  intro m _
  cases m.is_disabled
  · cases m.resolved with
    | none => rfl
    | some wf => simp only [eval_triggers_eq_any, spec_trigger_should_run]
  · rfl

/-- C4 counterexample: the dotted field `a.b` is present on the event with
value `0`, yet `_get_event_value` reports the absent outcome, because the
code tests each resolved value with Python truthiness (`if not
event_val`) instead of comparing against None. -/
theorem event_value_falsy_cex :
    get_event_value [("a", EventVal.evDict [("b", EventVal.evInt 0)])] "a.b"
      = Except.ok EventVal.evNone
    ∧ List.lookup "b" [("b", EventVal.evInt 0)] = some (EventVal.evInt 0) :=
  ⟨rfl, rfl⟩

/-- A falsy value is reported absent by the reference walk whatever
segments remain. -/
theorem walk_spec_falsy (v : EventVal) (ks : List String)
    (hv : v.truthy = false) : walk_spec v ks = Except.ok EventVal.evNone := by
  cases ks <;> simp [walk_spec, hv]

/-- The post-get truthiness-checking loop of `_get_event_value` agrees
with the entry-checking reference walk on truthy starting values. -/
theorem get_event_value_loop_eq_walk :
    ∀ (ks : List String) (v : EventVal), v.truthy = true →
      get_event_value_loop v ks = walk_spec v ks := by
  intro ks
  induction ks with
  | nil =>
    intro v hv
    simp [get_event_value_loop, walk_spec, hv]
  | cons k rest ih =>
    intro v hv
    cases v with
    | evDict l =>
      simp only [get_event_value_loop, walk_spec, hv]
      cases h2 : ((List.lookup k l).getD EventVal.evNone).truthy with
      | false => simp [h2, walk_spec_falsy _ _ h2]
      | true => simp [h2, ih _ h2]
    | evNone => simp [EventVal.truthy] at hv
    | evBool b => simp [get_event_value_loop, walk_spec, hv]
    | evInt n => simp [get_event_value_loop, walk_spec, hv]
    | evStr s => simp [get_event_value_loop, walk_spec, hv]

/-- C4 amended: `_get_event_value` resolves the first segment as an event
attribute and later segments as mapping lookups, but fails closed not only
when a segment is missing: any falsy resolved value (0, empty string,
False, empty mapping, None) at any depth is also reported absent, so a
present field can be reported absent; a truthy non-mapping intermediate
value with segments remaining raises instead of returning absent.  The
code's resolution coincides with the reference walk `resolve_spec`
encoding exactly those rules, and a present field whose values are truthy
is returned, as the concrete instance shows. -/
theorem event_value_resolution_amended :
    (∀ event filter_key,
      get_event_value event filter_key = resolve_spec event filter_key)
    ∧ get_event_value [("a", EventVal.evDict [("b", EventVal.evStr "x")])] "a.b"
        = Except.ok (EventVal.evStr "x") := by
  refine ⟨?_, rfl⟩
  intro event filter_key
  unfold get_event_value resolve_spec
  cases hc : filter_key.toList.contains '.'
  · rfl
  · cases hs : splitKey filter_key with
    | nil => rfl
    | cons k0 rest =>
      simp only
      cases hv : ((List.lookup k0 event).getD EventVal.evNone).truthy with
      | false => simp [hv, walk_spec_falsy _ _ hv]
      | true => simp [hv, get_event_value_loop_eq_walk rest _ hv]

/-- C5 counterexample: for the regex filter `r"5"` and the integer event
value `5`, the claim requires a match against the stringified value "5"
(which the pattern does match, as the second conjunct shows on the string
value), but `_apply_filter` passes the raw integer to `findall`, the
TypeError is caught, and the filter reports non-match. -/
theorem regex_filter_nonstring_cex :
    (apply_filter (SVal.sStr "r\"5\"") (SVal.sInt 5)).truthy = false
    ∧ (apply_filter (SVal.sStr "r\"5\"") (SVal.sStr "5")).truthy = true :=
  ⟨rfl, rfl⟩

/-- C5 amended: for a regex-marker filter value and a string event value,
`_apply_filter` is truthy exactly when the pattern finds at least one
match in the (un-stringified) event value; a non-string event value makes
`findall` raise, and the error is caught and treated as non-match rather
than raised — no stringification happens.  Pattern `^prod-` matches
`prod-east-1` and not `staging-1`. -/
theorem regex_filter_amended :
    (∀ (fs v pat : String) (anch : Bool) (lit : List Char),
      stripRegexMarker fs = some pat →
      parseSimplePattern pat = some (anch, lit) →
      ((apply_filter (SVal.sStr fs) (SVal.sStr v)).truthy = true
        ↔ pyFindall anch lit v.toList ≠ []))
    ∧ (∀ (fs pat : String) (n : Int),
      stripRegexMarker fs = some pat →
      apply_filter (SVal.sStr fs) (SVal.sInt n) = FilterRes.flag false)
    ∧ (apply_filter (SVal.sStr "r\"^prod-\"") (SVal.sStr "prod-east-1")).truthy = true
    ∧ (apply_filter (SVal.sStr "r\"^prod-\"") (SVal.sStr "staging-1")).truthy = false := by
  refine ⟨?_, ?_, rfl, rfl⟩
  · intro fs v pat anch lit hstrip hparse
    simp [apply_filter, hstrip, hparse, FilterRes.truthy]
  · intro fs pat n hstrip
    cases hparse : parseSimplePattern pat with
    | none => simp [apply_filter, hstrip, hparse]
    | some al => simp [apply_filter, hstrip, hparse]

/-- C5 witness: the amended equivalence instantiated at the `^prod-`
filter of the spec's example. -/
theorem regex_filter_amended_witness :
    (apply_filter (SVal.sStr "r\"^prod-\"") (SVal.sStr "prod-east-1")).truthy = true
      ↔ pyFindall true "prod-".toList "prod-east-1".toList ≠ [] :=
  regex_filter_amended.1 "r\"^prod-\"" "prod-east-1" "^prod-" true
    "prod-".toList rfl rfl

/-- C1 counterexample: a run whose steps return the error list ["boom"]
and whose configured `on_failure` action raises.  `_run_workflow` invokes
`on_failure` inside the `try`, the raised compensation error re-enters the
`except` clause, `on_failure` is invoked a second time, and the
compensation exception — not the original error — is what propagates: the
action runs twice, its failure is retried once and masks the original
failure. -/
theorem on_failure_double_invocation_cex :
    (run_workflow "noauth" ⟨"wf1", [], true, [some "comp boom"],
        StepsOutcome.ok ["boom"], none⟩).comp_calls
      = [on_failure_message "wf1" "boom", on_failure_message "wf1" "comp boom"]
    ∧ (run_workflow "noauth" ⟨"wf1", [], true, [some "comp boom"],
        StepsOutcome.ok ["boom"], none⟩).outcome = Except.error "comp boom" :=
  ⟨rfl, rfl⟩

/-- C1 amended: with `on_failure` configured, a failing run triggers the
action with the synthesized message (workflow id plus joined error text)
as its sole parameter.  Provided the action does not itself raise it runs
exactly once and the original outcome is preserved (returned error list,
or re-raised step exception).  If the action raises while handling a
non-empty error list it is invoked a second time with the compensation
error as the message and the compensation exception becomes the run's
outcome; if it raises while handling a step exception the compensation
exception replaces the original one. -/
theorem on_failure_compensation_amended (auth workflow_id : String)
    (providers : List String) (sched : List (Option String))
    (save_exc : Option String)
    (hok : check_premium_providers auth providers = none) :
    (∀ e rest, sched.getD 0 none = none →
      (run_workflow auth ⟨workflow_id, providers, true, sched,
          StepsOutcome.ok (e :: rest), save_exc⟩).comp_calls
        = [on_failure_message workflow_id (join_comma (e :: rest))]
      ∧ (save_exc = none →
        (run_workflow auth ⟨workflow_id, providers, true, sched,
            StepsOutcome.ok (e :: rest), save_exc⟩).outcome
          = Except.ok (e :: rest)))
    ∧ (∀ m, sched.getD 0 none = none →
      (run_workflow auth ⟨workflow_id, providers, true, sched,
          StepsOutcome.exc m, save_exc⟩).comp_calls
        = [on_failure_message workflow_id m]
      ∧ (run_workflow auth ⟨workflow_id, providers, true, sched,
          StepsOutcome.exc m, save_exc⟩).outcome = Except.error m)
    ∧ (∀ e rest ce, sched.getD 0 none = some ce →
      (run_workflow auth ⟨workflow_id, providers, true, sched,
          StepsOutcome.ok (e :: rest), save_exc⟩).comp_calls
        = [on_failure_message workflow_id (join_comma (e :: rest)),
           on_failure_message workflow_id ce]
      ∧ (run_workflow auth ⟨workflow_id, providers, true, sched,
          StepsOutcome.ok (e :: rest), save_exc⟩).outcome
        = Except.error ((sched.getD 1 none).getD ce))
    ∧ (∀ m ce, sched.getD 0 none = some ce →
      (run_workflow auth ⟨workflow_id, providers, true, sched,
          StepsOutcome.exc m, save_exc⟩).comp_calls
        = [on_failure_message workflow_id m]
      ∧ (run_workflow auth ⟨workflow_id, providers, true, sched,
          StepsOutcome.exc m, save_exc⟩).outcome = Except.error ce) := by
  refine ⟨?_, ?_, ?_, ?_⟩
  · intro e rest h0
    simp only [List.getD, List.get?_eq_getElem?] at h0
    cases hs : save_exc <;>
      simp [run_workflow, hok, run_on_failure_model, finish_run, h0, hs]
  · intro m h0
    simp only [List.getD, List.get?_eq_getElem?] at h0
    simp [run_workflow, hok, run_on_failure_model, h0]
  · intro e rest ce h0
    simp only [List.getD, List.get?_eq_getElem?] at h0
    simp [run_workflow, hok, run_on_failure_model, h0, List.getD]
  · intro m ce h0
    simp only [List.getD, List.get?_eq_getElem?] at h0
    simp [run_workflow, hok, run_on_failure_model, h0]

/-- C1 witness: the amended theorem at a run with error list ["boom"] and
a non-raising `on_failure`: one invocation with the synthesized message
and the original error list returned. -/
theorem on_failure_compensation_amended_witness :
    (run_workflow "noauth" ⟨"wf1", [], true, [],
        StepsOutcome.ok ["boom"], none⟩).comp_calls
      = [on_failure_message "wf1" (join_comma ["boom"])]
    ∧ (run_workflow "noauth" ⟨"wf1", [], true, [],
        StepsOutcome.ok ["boom"], none⟩).outcome = Except.ok ["boom"] := by
  have h := (on_failure_compensation_amended "noauth" "wf1" [] [] none rfl).1
    "boom" [] rfl
  exact ⟨h.1, h.2 rfl⟩

/-- C2 counterexample: on a started manager, `stop()` succeeds and clears
the scheduler reference, after which `start()` raises an AttributeError on
None rather than returning the dispatcher to a running state. -/
theorem manager_restart_cex :
    manager_stop ⟨true, some ⟨true⟩⟩ = Except.ok ⟨false, none⟩
    ∧ manager_start ⟨false, none⟩
        = Except.error "AttributeError: NoneType has no attribute start" :=
  ⟨rfl, rfl⟩

/-- C2 amended: `stop()` on a started manager halts and clears the
scheduler reference, so an immediate `start()` raises on the cleared
reference instead of returning to a running state; `stop()` on a stopped
manager is a no-op that raises nothing; `start()` while started is a
no-op. -/
theorem manager_lifecycle_amended (s : SchedulerState)
    (o : Option SchedulerState) :
    manager_stop ⟨true, some s⟩ = Except.ok ⟨false, none⟩
    ∧ manager_start ⟨false, none⟩
        = Except.error "AttributeError: NoneType has no attribute start"
    ∧ manager_stop ⟨false, none⟩ = Except.ok ⟨false, none⟩
    ∧ manager_start ⟨true, o⟩ = Except.ok ⟨true, o⟩ :=
  ⟨rfl, rfl, rfl, rfl⟩

/-- C9 counterexample: steps recorded the error "e9" without raising, yet
because the configured `on_failure` action raises, the exception path is
taken and `_save_workflow_results` is never reached — persistence does not
occur despite errors-without-raising. -/
theorem save_skipped_on_comp_failure_cex :
    (run_workflow "noauth" ⟨"wf9", [], true, [some "c9"],
        StepsOutcome.ok ["e9"], none⟩).steps_ran = true
    ∧ (run_workflow "noauth" ⟨"wf9", [], true, [some "c9"],
        StepsOutcome.ok ["e9"], none⟩).save_reached = false :=
  ⟨rfl, rfl⟩

/-- C9 amended: when an exception propagates out of the premium check or
out of step execution, `_save_workflow_results` is never reached; when
steps return an error list without raising, the save step is reached —
provided the `on_failure` action (invoked for a non-empty list) does not
itself raise — and succeeds whenever the external store does. -/
theorem save_only_on_success_path_amended (auth : String) (w : WFExec) :
    (∀ e, check_premium_providers auth w.providers = some e →
      (run_workflow auth w).save_reached = false)
    ∧ (∀ m, w.steps = StepsOutcome.exc m →
      (run_workflow auth w).save_reached = false)
    ∧ (∀ errors, check_premium_providers auth w.providers = none →
      w.steps = StepsOutcome.ok errors →
      (w.has_on_failure = true → w.comp_sched.getD 0 none = none) →
      (run_workflow auth w).save_reached = true
      ∧ (w.save_exc = none → (run_workflow auth w).saved = true)) := by
  refine ⟨?_, ?_, ?_⟩
  · intro e he
    simp [run_workflow, he, run_on_failure_model]
  · intro m hm
    cases hc : check_premium_providers auth w.providers <;>
      simp [run_workflow, hc, hm, run_on_failure_model]
  · intro errors hc hs hcomp
    cases herr : errors.isEmpty with
    | true =>
      cases hsave : w.save_exc <;>
        simp [run_workflow, hc, hs, herr, finish_run, hsave]
    | false =>
      cases hof : w.has_on_failure with
      | false =>
        cases hsave : w.save_exc <;>
          simp [run_workflow, hc, hs, herr, hof, run_on_failure_model,
            finish_run, hsave]
      | true =>
        have hcomp0 := hcomp hof
        simp only [List.getD, List.get?_eq_getElem?] at hcomp0
        cases hsave : w.save_exc <;>
          simp [run_workflow, hc, hs, herr, hof, run_on_failure_model,
            finish_run, hsave, hcomp0]

/-- C9 witness: the amended theorem's positive part at a run with errors
and no `on_failure`: the save step is reached and the results are
saved. -/
theorem save_only_on_success_path_amended_witness :
    (run_workflow "noauth" ⟨"wfw", [], false, [],
        StepsOutcome.ok ["err"], none⟩).save_reached = true
    ∧ (run_workflow "noauth" ⟨"wfw", [], false, [],
        StepsOutcome.ok ["err"], none⟩).saved = true := by
  have h := (save_only_on_success_path_amended "noauth"
      ⟨"wfw", [], false, [], StepsOutcome.ok ["err"], none⟩).2.2
    ["err"] rfl rfl (fun hcontr => nomatch hcontr)
  exact ⟨h.1, h.2 rfl⟩

/-- C6 counterexample: with no pusher client wired, adding the comment
commits both mention records, but zero `insert_user_assigned_event` calls
are made — the workflow-triggering loop sits inside the pusher guard. -/
theorem comment_mentions_no_pusher_cex :
    (add_comment_model "inc-1" "com-1" "carol@example.com"
        "ping @alice and @bob.smith please look" false true).persisted_mentions
      = ["alice", "bob.smith"]
    ∧ (add_comment_model "inc-1" "com-1" "carol@example.com"
        "ping @alice and @bob.smith please look" false true).insert_calls = [] :=
  ⟨rfl, rfl⟩

/-- C6 amended: for the comment "ping @alice and @bob.smith please look",
exactly two mention records are created with user ids alice and bob.smith,
and — provided a pusher client is configured and the commit succeeds —
exactly two `insert_user_assigned_event` calls are made, one per mentioned
user, each carrying the incident id, comment id, mentioned user,
mentioning user and full comment text; without a pusher client no call is
made. -/
theorem comment_mentions_amended :
    extractMentions "ping @alice and @bob.smith please look"
      = ["alice", "bob.smith"]
    ∧ (add_comment_model "inc-1" "com-1" "carol@example.com"
        "ping @alice and @bob.smith please look" true true).persisted_mentions
      = ["alice", "bob.smith"]
    ∧ (add_comment_model "inc-1" "com-1" "carol@example.com"
        "ping @alice and @bob.smith please look" true true).insert_calls
      = [mention_event_data "inc-1" "com-1" "alice" "carol@example.com"
           "ping @alice and @bob.smith please look",
         mention_event_data "inc-1" "com-1" "bob.smith" "carol@example.com"
           "ping @alice and @bob.smith please look"]
    ∧ (add_comment_model "inc-1" "com-1" "carol@example.com"
        "ping @alice and @bob.smith please look" true true).mention_pushes.length
      = 2 :=
  ⟨rfl, rfl, rfl, rfl⟩

/-- C10: when committing the mention rows fails, `add_comment` rolls the
session back (a rollback happens exactly when there were mentions to
commit), sends no user-mention notification, makes no
`insert_user_assigned_event` call, persists no mention row, swallows the
failure instead of raising to the HTTP caller, and still returns the
already-created comment. -/
theorem comment_commit_failure_handling (incident_id comment_id author
    comment_text : String) (pusher : Bool) :
    (add_comment_model incident_id comment_id author comment_text
        pusher false).rolled_back = !(extractMentions comment_text).isEmpty
    ∧ (add_comment_model incident_id comment_id author comment_text
        pusher false).mention_pushes = []
    ∧ (add_comment_model incident_id comment_id author comment_text
        pusher false).insert_calls = []
    ∧ (add_comment_model incident_id comment_id author comment_text
        pusher false).persisted_mentions = []
    ∧ (add_comment_model incident_id comment_id author comment_text
        pusher false).raised = false
    ∧ (add_comment_model incident_id comment_id author comment_text
        pusher false).returned_comment = comment_id := by
  unfold add_comment_model
  cases h : (extractMentions comment_text).isEmpty <;> simp [h]

/-- C7: in a restricted deployment mode, a workflow referencing a premium
provider is aborted before `workflow.run` is ever invoked: the premium
check raises inside the try block, the run's outcome is the propagated
policy exception, and the dispatcher worker records the run as failed
without re-raising towards the event producer. -/
theorem premium_provider_gate (auth : String) (w : WFExec) (p : String)
    (hauth : restricted_auth auth = true) (hp : p ∈ w.providers)
    (hprem : p ∈ PREMIUM_PROVIDERS) :
    (run_workflow auth w).steps_ran = false
    ∧ (∃ e, (run_workflow auth w).outcome = Except.error e)
    ∧ worker_execute auth w = RunState.failed := by
  have hfind : (w.providers.find? (fun q => PREMIUM_PROVIDERS.contains q)).isSome := by
    rw [List.find?_isSome]
    exact ⟨p, hp, List.elem_iff.mpr hprem⟩
  obtain ⟨q, hq⟩ := Option.isSome_iff_exists.mp hfind
  have hch : check_premium_providers auth w.providers
      = some ("Provider " ++ q ++
        " is a premium provider. You can self-host or contact us to get access to it.") := by
    unfold check_premium_providers
    rw [if_pos hauth, hq]
    rfl
  refine ⟨?_, ?_, ?_⟩
  · cases hof : w.has_on_failure <;>
      simp [run_workflow, hch, run_on_failure_model, hof]
  · cases hof : w.has_on_failure <;>
      simp [run_workflow, hch, run_on_failure_model, hof]
  · cases hof : w.has_on_failure <;>
      simp [worker_execute, run_workflow, hch, run_on_failure_model, hof]

/-- C7 witness: the gate applied to a MULTI_TENANT deployment and a
workflow using the bash provider. -/
theorem premium_provider_gate_witness :
    (run_workflow "MULTI_TENANT" ⟨"wfp", ["bash"], false, [],
        StepsOutcome.ok [], none⟩).steps_ran = false
    ∧ (∃ e, (run_workflow "MULTI_TENANT" ⟨"wfp", ["bash"], false, [],
        StepsOutcome.ok [], none⟩).outcome = Except.error e)
    ∧ worker_execute "MULTI_TENANT" ⟨"wfp", ["bash"], false, [],
        StepsOutcome.ok [], none⟩ = RunState.failed :=
  premium_provider_gate "MULTI_TENANT"
    ⟨"wfp", ["bash"], false, [], StepsOutcome.ok [], none⟩ "bash"
    rfl (List.Mem.head _) (List.Mem.head _)

/-- C8 counterexample: a concrete user_assigned event schedules exactly
one run, and the appended run dict has no "enqueued_at" key — the code
appends only workflow, workflow_id, tenant_id, triggered_by and event. -/
theorem scheduled_run_enqueued_at_cex :
    (insert_user_assigned_event "t1" []
        [⟨"w1", "n", "t1", false, some ⟨[⟨"user_assigned", [], []⟩]⟩⟩]).length = 1
    ∧ List.lookup "enqueued_at"
        ((insert_user_assigned_event "t1" []
          [⟨"w1", "n", "t1", false, some ⟨[⟨"user_assigned", [], []⟩]⟩⟩]).getD 0 [])
      = none :=
  ⟨rfl, rfl⟩

/-- C8 amended: every run appended by `insert_user_assigned_event` or
`insert_incident` is the five-field dict holding the resolved workflow
handle, workflow_id, tenant_id, the triggered_by string (the event kind,
or "incident:" plus the transition), and the event payload (with
enrichment merged for incidents) — and no enqueued_at timestamp: the dict
has no such key. -/
theorem scheduled_run_shape_amended :
    (∀ tenant_id data models r,
      r ∈ insert_user_assigned_event tenant_id data models →
      (∃ m ∈ models, ∃ wf, m.resolved = some wf ∧ m.is_disabled = false ∧
          r = mk_user_assigned_run tenant_id data m.id wf)
      ∧ List.lookup "triggered_by" r = some (RunVal.str "user_assigned")
      ∧ List.lookup "tenant_id" r = some (RunVal.str tenant_id)
      ∧ List.lookup "event" r = some (RunVal.data data)
      ∧ List.lookup "enqueued_at" r = none)
    ∧ (∀ tenant_id incident trigger models enrichment r,
      r ∈ insert_incident tenant_id incident trigger models enrichment →
      (∃ m ∈ models, ∃ wf, m.resolved = some wf ∧ m.is_disabled = false ∧
          r = mk_incident_run tenant_id (merge_enrichment incident enrichment)
                trigger m.id wf)
      ∧ List.lookup "triggered_by" r = some (RunVal.str ("incident:" ++ trigger))
      ∧ List.lookup "tenant_id" r = some (RunVal.str tenant_id)
      ∧ List.lookup "enqueued_at" r = none) := by
  constructor
  · intro tenant_id data models r hr
    unfold insert_user_assigned_event at hr
    rw [List.mem_filterMap] at hr
    obtain ⟨m, hm, hf⟩ := hr
    cases hd : m.is_disabled with
    | true => rw [hd] at hf; simp at hf
    | false =>
      rw [hd] at hf
      cases hres : m.resolved with
      | none => rw [hres] at hf; simp at hf
      | some wf =>
        rw [hres] at hf
        simp only [if_false, Bool.false_eq_true] at hf
        split at hf
        · simp at hf
        · split at hf
          · obtain rfl : mk_user_assigned_run tenant_id data m.id wf = r :=
              Option.some.inj hf
            exact ⟨⟨m, hm, wf, hres, hd, rfl⟩, rfl, rfl, rfl, rfl⟩
          · simp at hf
  · intro tenant_id incident trigger models enrichment r hr
    unfold insert_incident at hr
    rw [List.mem_filterMap] at hr
    obtain ⟨m, hm, hf⟩ := hr
    cases hd : m.is_disabled with
    | true => rw [hd] at hf; simp at hf
    | false =>
      rw [hd] at hf
      cases hres : m.resolved with
      | none => rw [hres] at hf; simp at hf
      | some wf =>
        rw [hres] at hf
        simp only [if_false, Bool.false_eq_true] at hf
        split at hf
        · simp at hf
        · obtain rfl : mk_incident_run tenant_id
              (merge_enrichment incident enrichment) trigger m.id wf = r :=
            Option.some.inj hf
          exact ⟨⟨m, hm, wf, hres, hd, rfl⟩, rfl, rfl, rfl⟩

/-- C8 witness: the shape theorem applied to the run scheduled for a
concrete user_assigned event. -/
theorem scheduled_run_shape_amended_witness :
    List.lookup "enqueued_at"
        (mk_user_assigned_run "t1" [] "w1" ⟨[⟨"user_assigned", [], []⟩]⟩) = none := by
  have hmem : mk_user_assigned_run "t1" [] "w1" ⟨[⟨"user_assigned", [], []⟩]⟩
      ∈ insert_user_assigned_event "t1" []
          [⟨"w1", "n", "t1", false, some ⟨[⟨"user_assigned", [], []⟩]⟩⟩] := by
    have he : insert_user_assigned_event "t1" []
        [⟨"w1", "n", "t1", false, some ⟨[⟨"user_assigned", [], []⟩]⟩⟩]
        = [mk_user_assigned_run "t1" [] "w1" ⟨[⟨"user_assigned", [], []⟩]⟩] := rfl
    rw [he]
    exact List.mem_singleton_self _
  exact ((scheduled_run_shape_amended.1 "t1" [] _ _ hmem)).2.2.2.2
